import Mathlib

/-!
Shallow embedding of `tstl.py`, a line-oriented black-box test runner.

The embedding models:

* `parseLine` / `readAux` / `read_test` — the script parser (`read_test` in
  `tstl.py`, lines 38-65): comments and blank lines are skipped, the four
  directive tokens are matched by prefix against the raw line (the source
  iterates the `KINDS` dict and lets a later match overwrite an earlier one),
  and an unmatched non-skipped line raises a `ValueError` whose message names
  `<absolute-path>:<1-based line number>` and the token list.
* `step` / `runLines` / `run_test` — the test executor (`run_test`,
  lines 68-113).  The child process spawned by `subprocess.Popen` is external
  to the repository, so its observable behaviour is a parameter: a `Child`
  state carrying the stdin-closed flag, a flag saying whether closing the
  still-open stdin would raise `BrokenPipeError` (per CPython semantics this
  is the only way `close()` raises: flushing buffered data into a pipe whose
  read end is gone; `io.IOBase.close` is documented to have no effect on an
  already-closed stream), the bytes written to stdin so far, and the
  remaining characters of the merged stdout+stderr stream.
  `readlineChars` models `p.stdout.readline()`: it returns everything up to
  and including the first newline, the whole remainder when no newline is
  left, and the empty string at end of stream.
  Writing to an already-closed stdin raises `ValueError` in Python; this is
  modelled as the `Except.error` branch of the `input` step.
* `processFiles` / `cmd_run` / `main_run` — the per-file loop of `cmd_run`
  (lines 136-152) together with `main`'s `except ValueError` handler
  (lines 207-210).  File discovery and the pre-flight argument/command checks
  are abstracted into the given `TestFile` list; each emitted `print` chunk
  is one element of the output list.
* `SUBCOMMANDS` / `main_dispatch` — `main`'s subcommand lookup (lines
  196-210).  The dict subscript `SUBCOMMANDS[name_subcommand]` happens
  before the `try` block, so a missing key is an uncaught `KeyError`; this
  is the `MainOutcome.uncaughtKeyError` outcome.

Python strings are modelled as Lean `String`/`List Char`; the scripts under
test are ASCII, so the byte/character distinction is immaterial here.
-/

set_option autoImplicit false

namespace Tstl

/-- Directive kinds, the values of the `KINDS` dict in `tstl.py`. -/
inductive Kind where
  | input
  | end_input
  | output
  | end_output
  deriving DecidableEq, Repr

/-- Directive as yielded by `read_test`: the tuple `(kind, s, origin)` where
`s` is the remainder of the line after the token (trailing newline included)
and `origin` is `<absolute-path>:<1-based line>`. -/
structure Directive where
  kind : Kind
  s : String
  origin : String
  deriving DecidableEq, Repr

/-- Observable state of the child process spawned by `sp.Popen`.
`stdinClosed` says whether the parent has closed `p.stdin`;
`closeRaisesBrokenPipe` says whether closing the still-open stdin would
raise `BrokenPipeError` (CPython raises it only when flushing buffered
data fails because the child's read end is gone — closing an
already-closed stream is a documented no-op, `io.IOBase.close`);
`stdinData` accumulates the bytes written to the child;
`stdout` is the remaining content of the merged stdout+stderr stream. -/
structure Child where
  stdinClosed : Bool
  closeRaisesBrokenPipe : Bool
  stdinData : String
  stdout : List Char
  deriving DecidableEq, Repr

/-- Character-list core of Python's `str.startswith`. -/
def startsWithChars : List Char → List Char → Bool
  | [], _ => true
  | _ :: _, [] => false
  | p :: ps, c :: cs => if p = c then startsWithChars ps cs else false

/-- Python's `line.startswith(pat)`. -/
def strStartsWith (s pat : String) : Bool :=
  startsWithChars pat.data s.data

/-- Python's `str.isspace` notion of whitespace, the characters removed by
`str.strip()` (ASCII part; the scripts are ASCII). -/
def pyIsSpace (c : Char) : Bool :=
  c == ' ' || c == '\t' || c == '\n' || c == '\r' || c == '\x0b' || c == '\x0c'

/-- Python's `line.strip() == ""`: every character is whitespace. -/
def isBlankLine (line : String) : Bool :=
  line.data.all pyIsSpace

/-- Python's `s[:-1]`: drop the final character; the empty string stays
empty.  Used by `run_test` to strip the (assumed) trailing newline of a
line for display in diagnostics. -/
def pyDropLast (s : String) : String :=
  String.mk s.data.dropLast

/-- Model of `p.stdout.readline()` on the remaining stream content: returns
the line up to and including the first newline together with the rest of
the stream; at end of stream the line is empty. -/
def readlineChars : List Char → List Char × List Char
  | [] => ([], [])
  | c :: cs =>
    if c = '\n' then ([c], cs)
    else
      let r := readlineChars cs
      (c :: r.1, r.2)

/-- The `KINDS` dict of `tstl.py`, in its insertion order. -/
def KINDS : List (String × Kind) :=
  [(">>> ", Kind.input), ("!>>", Kind.end_input),
   ("<<< ", Kind.output), ("!<<", Kind.end_output)]

/-- Token matching loop of `read_test`: iterate over `KINDS` and let a later
match overwrite an earlier one (the source loop has no `break`).  Returns
the matched token together with its kind; the source recovers the kind via
`KINDS[kind_token]` where `kind_token = line[:len(token)]`, which equals the
token itself whenever `line.startswith(token)` holds. -/
def matchToken (line : String) : Option (String × Kind) :=
  KINDS.foldl (fun acc tk => if strStartsWith line tk.1 then some tk else acc) none

/-- Processing of one raw script line by `read_test` (lines 40-65):
skip comments and blank lines, otherwise match a token and build the
directive, or raise `ValueError` with the exact f-string of line 61.
`idx` is the 0-based index of the line within the whole file (Python's
`enumerate(f.readlines())`), so the reported line number is `idx + 1`. -/
def parseLine (absPath : String) (idx : Nat) (line : String) :
    Except String (Option Directive) :=
  if strStartsWith line "#" then Except.ok none
  else if isBlankLine line then Except.ok none
  else
    match matchToken line with
    | none =>
      Except.error ("\nInvalid test at " ++ absPath ++ ":" ++ Nat.repr (idx + 1) ++
        ". Expected line to start with one of >>> , !>>, <<< , !<<.")
    | some tk =>
      Except.ok (some ⟨tk.2, String.mk (line.data.drop tk.1.data.length),
        absPath ++ ":" ++ Nat.repr (idx + 1)⟩)

/-- Outcome of executing one directive inside `run_test`'s loop: either
continue with the next directive, or return early with `passed = False`
and the diagnostic lines appended to `result_lines`. -/
inductive StepResult where
  | cont (c : Child)
  | fail (ls : List String) (c : Child)
  deriving DecidableEq, Repr

/-- Body of `run_test`'s loop for a single directive (lines 74-111).
`Except.error` models an uncaught Python exception (`ValueError` from
writing to a closed stdin). -/
def step (d : Directive) (c : Child) : Except String StepResult :=
  match d.kind with
  | Kind.input =>
    if c.stdinClosed then Except.error "write to closed file"
    else Except.ok (StepResult.cont { c with stdinData := c.stdinData ++ d.s })
  | Kind.end_input =>
    if c.stdinClosed then Except.ok (StepResult.cont c)
    else if c.closeRaisesBrokenPipe then
      Except.ok (StepResult.fail
        ["At " ++ d.origin,
         "Tried to close the standard input but it is already closed!"]
        { c with stdinClosed := true })
    else Except.ok (StepResult.cont { c with stdinClosed := true })
  | Kind.output =>
    if String.mk (readlineChars c.stdout).1 = d.s then
      Except.ok (StepResult.cont { c with stdout := (readlineChars c.stdout).2 })
    else
      Except.ok (StepResult.fail
        ["At " ++ d.origin,
         "Expected\t\"" ++ pyDropLast d.s ++ "\"",
         "Got\t\t\"" ++ pyDropLast (String.mk (readlineChars c.stdout).1) ++ "\""]
        { c with stdout := (readlineChars c.stdout).2 })
  | Kind.end_output =>
    if (readlineChars c.stdout).1 = [] then
      Except.ok (StepResult.cont { c with stdout := (readlineChars c.stdout).2 })
    else
      Except.ok (StepResult.fail
        ["Test failed at " ++ d.origin,
         "Expected End-Of-File",
         "Got\t\t\"" ++ pyDropLast (String.mk (readlineChars c.stdout).1) ++ "\""]
        { c with stdout := (readlineChars c.stdout).2 })

/-- Main loop of `run_test`: pull directives lazily from the parser (one raw
line at a time, as the generator `read_test` does) and execute each
immediately.  A parse error propagates (the `ValueError` raised inside the
generator); a failing step returns `(False, result_lines)` at once;
exhausting the script returns `(True, result_lines)`.  The final `Child`
state is returned as well so that resource-release facts can be stated. -/
def runLines (absPath : String) (idx : Nat) (raw : List String) (c : Child)
    (acc : List String) : Except String (Bool × List String × Child) :=
  match raw with
  | [] => Except.ok (true, acc, c)
  | line :: rest =>
    match parseLine absPath idx line with
    | Except.error e => Except.error e
    | Except.ok none => runLines absPath (idx + 1) rest c acc
    | Except.ok (some d) =>
      match step d c with
      | Except.error e => Except.error e
      | Except.ok (StepResult.cont c2) => runLines absPath (idx + 1) rest c2 acc
      | Except.ok (StepResult.fail ls c2) => Except.ok (false, acc ++ ls, c2)

/-- `run_test` (lines 68-113): run the script given by its raw lines against
a freshly launched child, starting with an empty `result_lines`. -/
def run_test (absPath : String) (raw : List String) (child : Child) :
    Except String (Bool × List String × Child) :=
  runLines absPath 0 raw child []

/-- Materialisation of the `read_test` generator from index `idx` on:
either the list of all yielded directives, or the first `ValueError`. -/
def readAux (absPath : String) (idx : Nat) (raw : List String) :
    Except String (List Directive) :=
  match raw with
  | [] => Except.ok []
  | line :: rest =>
    match parseLine absPath idx line with
    | Except.error e => Except.error e
    | Except.ok none => readAux absPath (idx + 1) rest
    | Except.ok (some d) =>
      match readAux absPath (idx + 1) rest with
      | Except.error e => Except.error e
      | Except.ok ds => Except.ok (d :: ds)

/-- `read_test` (lines 38-65) over the file's raw lines, `enumerate` starting
at 0.  `absPath` stands for `os.path.abspath(path_test)`. -/
def read_test (absPath : String) (raw : List String) : Except String (List Directive) :=
  readAux absPath 0 raw

/-- One discovered test file as `cmd_run` sees it: the path printed in the
progress line, its absolute path, its raw lines, and the observable
behaviour of the fresh child process launched for it. -/
structure TestFile where
  path : String
  absPath : String
  lines : List String
  child : Child
  deriving DecidableEq, Repr

/-- Per-file loop of `cmd_run` (lines 136-150).  Returns the emitted print
chunks (one list element per `print` call, `end=""` chunks included), the
number of passed tests, and the first propagated exception if any.  When
`run_test` raises, the loop stops right after the progress chunk of the
failing file. -/
def processFiles (files : List TestFile) : List String × Nat × Option String :=
  match files with
  | [] => ([], 0, none)
  | f :: rest =>
    let header := "\nRunning test " ++ f.path ++ " ... "
    match run_test f.absPath f.lines f.child with
    | Except.error e => ([header], 0, some e)
    | Except.ok (true, _, _) =>
      let r := processFiles rest
      (header :: "passed." :: "" :: r.1, r.2.1 + 1, r.2.2)
    | Except.ok (false, ds, _) =>
      let r := processFiles rest
      (header :: "FAILED." :: (ds.map (fun l => "\t" ++ l) ++ ("" :: r.1)),
       r.2.1, r.2.2)

/-- `cmd_run` after its pre-flight checks (lines 131-152): run every file;
the summary line of line 152 is printed only when no exception escaped the
loop — an escaping exception aborts `cmd_run` before the summary. -/
def cmd_run (files : List TestFile) : List String × Option String :=
  match processFiles files with
  | (out, np, none) =>
    (out ++ ["[" ++ Nat.repr np ++ "/" ++ Nat.repr files.length ++ "] tests passed."],
     none)
  | (out, _, some e) => (out, some e)

/-- Output of `main` on the `run` path: `main` wraps the subcommand in
`try ... except ValueError as e: print(e)` (lines 207-210), so a
propagated `ValueError` is printed after whatever `cmd_run` printed. -/
def main_run (files : List TestFile) : List String :=
  match cmd_run files with
  | (out, none) => out
  | (out, some e) => out ++ [e]

/-- Subcommand handlers, collapsed to which handler a name maps to. -/
inductive Subcmd where
  | run
  | new
  deriving DecidableEq, Repr

/-- The `SUBCOMMANDS` dict of `tstl.py` (lines 172-178), insertion order. -/
def SUBCOMMANDS : List (String × Subcmd) :=
  [("run", Subcmd.run), ("r", Subcmd.run),
   ("new", Subcmd.new), ("init", Subcmd.new), ("i", Subcmd.new)]

/-- Python dict subscript on the modelled `SUBCOMMANDS` table: `none` models
the `KeyError` case. -/
def dictLookup (table : List (String × Subcmd)) (name : String) : Option Subcmd :=
  match table with
  | [] => none
  | kv :: rest => if kv.1 = name then some kv.2 else dictLookup rest name

/-- Observable outcome of `main`'s dispatch (lines 196-210). -/
inductive MainOutcome where
  | usage
  | dispatched (c : Subcmd) (args : List String)
  | uncaughtKeyError (name : String)
  deriving DecidableEq, Repr

/-- Child state carried by a `StepResult`, whether continuing or failing. -/
def StepResult.child : StepResult → Child
  | StepResult.cont c => c
  | StepResult.fail _ c => c

/-- Concrete file whose first line is not a directive, used to exercise the
syntax-error path of the whole run. -/
def c3File1 : TestFile :=
  ⟨"bad.tstl", "/abs/bad.tstl", ["%%% nonsense\n"], ⟨false, false, "", []⟩⟩

/-- Concrete passing file placed after `c3File1` in the discovery order. -/
def c3File2 : TestFile :=
  ⟨"good.tstl", "/abs/good.tstl", ["!<<\n"], ⟨false, false, "", []⟩⟩

/-- `main`'s argument handling: with no arguments print usage; otherwise
look the subcommand name up in `SUBCOMMANDS`.  The subscript
`SUBCOMMANDS[name_subcommand]` on line 204 sits outside the `try` block of
lines 207-210 (which catches only `ValueError`), so a missing name is an
uncaught `KeyError` that terminates the interpreter with a traceback. -/
def main_dispatch (argv : List String) : MainOutcome :=
  match argv with
  | [] => MainOutcome.usage
  | [_] => MainOutcome.usage
  | _ :: name :: rest =>
    match dictLookup SUBCOMMANDS name with
    | some c => MainOutcome.dispatched c (name :: rest)
    | none => MainOutcome.uncaughtKeyError name

/-! Helper lemmas shared by the claim theorems. -/

/-- Unfolding of the token-matching fold over the four-entry `KINDS` dict:
a later dict entry overwrites an earlier match. -/
theorem matchToken_eq (line : String) : matchToken line =
    (if strStartsWith line "!<<" then some ("!<<", Kind.end_output)
     else if strStartsWith line "<<< " then some ("<<< ", Kind.output)
     else if strStartsWith line "!>>" then some ("!>>", Kind.end_input)
     else if strStartsWith line ">>> " then some (">>> ", Kind.input)
     else none) := rfl

/-- Every error raised by `parseLine` carries the exact `ValueError` message
of `read_test`, naming `<absolute-path>:<1-based line>` and the four valid
tokens. -/
theorem parseLine_error_msg {absPath : String} {idx : Nat} {line e : String}
    (h : parseLine absPath idx line = Except.error e) :
    e = "\nInvalid test at " ++ absPath ++ ":" ++ Nat.repr (idx + 1) ++
      ". Expected line to start with one of >>> , !>>, <<< , !<<." := by
  unfold parseLine at h
  split at h
  · simp at h
  · split at h
    · simp at h
    · split at h
      · injection h with h
        exact h.symm
      · simp at h

/-- Every directive produced by `parseLine` carries the origin
`<absolute-path>:<1-based line>` of the raw line it came from. -/
theorem parseLine_origin {absPath : String} {idx : Nat} {line : String} {d : Directive}
    (h : parseLine absPath idx line = Except.ok (some d)) :
    d.origin = absPath ++ ":" ++ Nat.repr (idx + 1) := by
  unfold parseLine at h
  split at h
  · simp at h
  · split at h
    · simp at h
    · split at h
      · simp at h
      · injection h with h
        injection h with h
        rw [← h]

/-- A token match yielding `end_input` can only come from a line starting
with the token `!>>`. -/
theorem matchToken_end_input {line tok : String}
    (h : matchToken line = some (tok, Kind.end_input)) :
    strStartsWith line "!>>" = true := by
  rw [matchToken_eq] at h
  by_cases h1 : strStartsWith line "!<<" = true
  · rw [if_pos h1] at h
    simp at h
  · rw [if_neg h1] at h
    by_cases h2 : strStartsWith line "<<< " = true
    · rw [if_pos h2] at h
      simp at h
    · rw [if_neg h2] at h
      by_cases h3 : strStartsWith line "!>>" = true
      · exact h3
      · rw [if_neg h3] at h
        by_cases h4 : strStartsWith line ">>> " = true
        · rw [if_pos h4] at h
          simp at h
        · rw [if_neg h4] at h
          simp at h

/-- A parsed directive of kind `end_input` can only come from a raw line
starting with `!>>`. -/
theorem parseLine_end_input {absPath : String} {idx : Nat} {line : String} {d : Directive}
    (h : parseLine absPath idx line = Except.ok (some d)) (hk : d.kind = Kind.end_input) :
    strStartsWith line "!>>" = true := by
  unfold parseLine at h
  split at h
  · simp at h
  · split at h
    · simp at h
    · split at h
      · simp at h
      · rename_i tk hmt
        obtain ⟨t1, t2⟩ := tk
        injection h with h
        injection h with h
        rw [← h] at hk
        simp only [] at hk
        subst hk
        exact matchToken_end_input hmt

/-- Propagation of the first parse error: if every raw line before position
`j` parses without error and the line at `j` raises, then the whole parse
from offset `k` raises exactly that error. -/
theorem readAux_error_at (absPath : String) :
    ∀ (raw : List String) (k j : Nat) (lj e : String),
      raw.get? j = some lj →
      (∀ i li, i < j → raw.get? i = some li →
        ∃ r, parseLine absPath (k + i) li = Except.ok r) →
      parseLine absPath (k + j) lj = Except.error e →
      readAux absPath k raw = Except.error e := by
  intro raw
  induction raw with
  | nil =>
    intro k j lj e hj _ _
    simp at hj
  | cons l rest ih =>
    intro k j lj e hj hok herr
    cases j with
    | zero =>
      simp at hj
      subst hj
      rw [Nat.add_zero] at herr
      simp only [readAux]
      rw [herr]
    | succ j' =>
      obtain ⟨r, hr⟩ := hok 0 l (Nat.succ_pos j') rfl
      rw [Nat.add_zero] at hr
      have hj' : rest.get? j' = some lj := by simpa using hj
      have hok' : ∀ i li, i < j' → rest.get? i = some li →
          ∃ r, parseLine absPath ((k + 1) + i) li = Except.ok r := by
        intro i li hi hget
        have e1 : (k + 1) + i = k + (i + 1) := by omega
        rw [e1]
        exact hok (i + 1) li (Nat.succ_lt_succ hi) (by simpa using hget)
      have herr' : parseLine absPath ((k + 1) + j') lj = Except.error e := by
        have e1 : (k + 1) + j' = k + (j' + 1) := by omega
        rw [e1]
        exact herr
      have hrec := ih (k + 1) j' lj e hj' hok' herr'
      simp only [readAux]
      rw [hr]
      cases r with
      | none => exact hrec
      | some d =>
        rw [hrec]

/-- Diagnostics invariant of the run loop: reaching the end of the script
returns `result_lines` exactly as accumulated (no failure branch ever
appended to it). -/
theorem runLines_true_acc (absPath : String) :
    ∀ (raw : List String) (idx : Nat) (c : Child) (acc ds : List String) (c' : Child),
      runLines absPath idx raw c acc = Except.ok (true, ds, c') → ds = acc := by
  intro raw
  induction raw with
  | nil =>
    intro idx c acc ds c' h
    simp only [runLines] at h
    simp at h
    exact h.1.symm
  | cons l rest ih =>
    intro idx c acc ds c' h
    simp only [runLines] at h
    split at h
    · simp at h
    · exact ih _ _ _ _ _ h
    · split at h
      · simp at h
      · exact ih _ _ _ _ _ h
      · simp at h

/-- Executing one directive whose kind is not `end_input` never changes the
stdin-closed flag: only the `end_input` branch of `run_test` touches
`p.stdin`'s open/closed state. -/
theorem step_preserves_stdinClosed {d : Directive} {c : Child} {r : StepResult}
    (h : step d c = Except.ok r) (hk : d.kind ≠ Kind.end_input) :
    r.child.stdinClosed = c.stdinClosed := by
  obtain ⟨kind, s, origin⟩ := d
  cases kind with
  | input =>
    simp only [step] at h
    split at h
    · simp at h
    · injection h with h
      rw [← h]
      rfl
  | end_input => exact absurd rfl hk
  | output =>
    simp only [step] at h
    split at h <;> (injection h with h; rw [← h]; rfl)
  | end_output =>
    simp only [step] at h
    split at h <;> (injection h with h; rw [← h]; rfl)

/-- Run-loop invariant behind the resource-release analysis: if no raw line
of the script starts with `!>>`, the run loop leaves the stdin-closed flag
exactly as it found it, on every return path. -/
theorem runLines_stdinClosed (absPath : String) :
    ∀ (raw : List String) (idx : Nat) (c : Child) (acc : List String)
      (b : Bool) (ds : List String) (c' : Child),
      (∀ l ∈ raw, strStartsWith l "!>>" = false) →
      runLines absPath idx raw c acc = Except.ok (b, ds, c') →
      c'.stdinClosed = c.stdinClosed := by
  intro raw
  induction raw with
  | nil =>
    intro idx c acc b ds c' _ h
    simp only [runLines] at h
    simp at h
    rw [← h.2.2]
  | cons l rest ih =>
    intro idx c acc b ds c' hno h
    have hnoRest : ∀ l' ∈ rest, strStartsWith l' "!>>" = false :=
      fun l' hl' => hno l' (List.mem_cons_of_mem _ hl')
    simp only [runLines] at h
    split at h
    · simp at h
    · exact ih (idx + 1) c acc b ds c' hnoRest h
    · rename_i d hp
      have hkind : d.kind ≠ Kind.end_input := by
        intro hk
        have hsw := parseLine_end_input hp hk
        rw [hno l (List.mem_cons_self l rest)] at hsw
        simp at hsw
      split at h
      · simp at h
      · rename_i c2 hs
        have h1 := step_preserves_stdinClosed hs hkind
        have h2 := ih (idx + 1) c2 acc b ds c' hnoRest h
        rw [h2]
        exact h1
      · rename_i ls c2 hs
        have h1 := step_preserves_stdinClosed hs hkind
        simp at h
        rw [← h.2.2]
        exact h1

/-! Claim theorems. -/

/-- C2: for every `Output` directive the executor reads exactly one line
from the child's merged output stream (the final child state retains
exactly the rest of the stream after one `readline`) and compares the full
line, trailing newline included, against the directive's expected payload.
On a mismatch it returns `passed = false` at once with diagnostics holding
the location, expected text and actual text of that first mismatch only —
the result does not depend on the remaining raw lines `rawRest`, so all
remaining directives are skipped.  On a match it continues with the next
directive. -/
theorem c2_output_directive_exec (absPath : String) (idx : Nat) (line : String)
    (rawRest : List String) (child : Child) (acc : List String) (s origin : String)
    (h : parseLine absPath idx line = Except.ok (some ⟨Kind.output, s, origin⟩)) :
    (String.mk (readlineChars child.stdout).1 ≠ s →
      runLines absPath idx (line :: rawRest) child acc =
        Except.ok (false,
          acc ++ ["At " ++ origin,
                  "Expected\t\"" ++ pyDropLast s ++ "\"",
                  "Got\t\t\"" ++ pyDropLast (String.mk (readlineChars child.stdout).1) ++ "\""],
          { child with stdout := (readlineChars child.stdout).2 })) ∧
    (String.mk (readlineChars child.stdout).1 = s →
      runLines absPath idx (line :: rawRest) child acc =
        runLines absPath (idx + 1) rawRest
          { child with stdout := (readlineChars child.stdout).2 } acc) := by
  constructor
  · intro hne
    simp only [runLines, h, step]
    rw [if_neg hne]
  · intro heq
    simp only [runLines, h, step]
    rw [if_pos heq]

/-- Witness for C2: a concrete mismatching `Output` directive fails with the
first mismatch's diagnostics and skips the trailing `!<<` line. -/
theorem c2_output_directive_exec_witness :
    runLines "/t/w2.tstl" 0 ["<<< x\n", "!<<\n"] ⟨false, false, "", ("y\n").data⟩ [] =
      Except.ok (false,
        ["At /t/w2.tstl:1", "Expected\t\"x\"", "Got\t\t\"y\""],
        ⟨false, false, "", []⟩) :=
  (c2_output_directive_exec "/t/w2.tstl" 0 "<<< x\n" ["!<<\n"]
    ⟨false, false, "", ("y\n").data⟩ [] "x\n" "/t/w2.tstl:1" rfl).1 (by decide)

/-- C4: for every `EndOutput` directive the executor reads one more line
from the child's output stream.  If the read yields no data (end of
stream), the directive is satisfied and the loop continues with the next
directive; if it yields a non-empty line, `run_test` returns
`passed = false` immediately (independently of `rawRest`) with diagnostics
holding the location, `Expected End-Of-File`, and the extra line's content
(newline stripped for display). -/
theorem c4_end_output_exec (absPath : String) (idx : Nat) (line : String)
    (rawRest : List String) (child : Child) (acc : List String) (s origin : String)
    (h : parseLine absPath idx line = Except.ok (some ⟨Kind.end_output, s, origin⟩)) :
    ((readlineChars child.stdout).1 = [] →
      runLines absPath idx (line :: rawRest) child acc =
        runLines absPath (idx + 1) rawRest
          { child with stdout := (readlineChars child.stdout).2 } acc) ∧
    ((readlineChars child.stdout).1 ≠ [] →
      runLines absPath idx (line :: rawRest) child acc =
        Except.ok (false,
          acc ++ ["Test failed at " ++ origin,
                  "Expected End-Of-File",
                  "Got\t\t\"" ++ pyDropLast (String.mk (readlineChars child.stdout).1) ++ "\""],
          { child with stdout := (readlineChars child.stdout).2 })) := by
  constructor
  · intro heq
    simp only [runLines, h, step]
    rw [if_pos heq]
  · intro hne
    simp only [runLines, h, step]
    rw [if_neg hne]

/-- Witness for C4: a script ending in `!<<` against a child that emits one
extra line fails with the `Expected End-Of-File` diagnostic. -/
theorem c4_end_output_exec_witness :
    runLines "/t/w4.tstl" 0 ["!<<\n"] ⟨true, false, "", ("extra\n").data⟩ [] =
      Except.ok (false,
        ["Test failed at /t/w4.tstl:1", "Expected End-Of-File", "Got\t\t\"extra\""],
        ⟨true, false, "", []⟩) :=
  (c4_end_output_exec "/t/w4.tstl" 0 "!<<\n" []
    ⟨true, false, "", ("extra\n").data⟩ [] "\n" "/t/w4.tstl:1" rfl).2 (by decide)

/-- C5: a test run in which every directive is consumed without triggering a
failure branch returns through the final `return True, result_lines`, and
`result_lines` is then still the empty list it started as — `passed = true`
comes with an empty diagnostics sequence. -/
theorem c5_success_empty_diagnostics (absPath : String) (raw : List String)
    (child : Child) (ds : List String) (c : Child)
    (h : run_test absPath raw child = Except.ok (true, ds, c)) : ds = [] :=
  runLines_true_acc absPath raw 0 child [] ds c h

/-- Witness for C5 at a concrete passing script. -/
theorem c5_success_empty_diagnostics_witness :
    run_test "/t/w5.tstl" ["# test\n", ">>> a\n", "!>>\n", "<<< b\n", "!<<\n"]
      ⟨false, false, "", ("b\n").data⟩ =
      Except.ok (true, ([] : List String), ⟨true, false, "a\n", []⟩) ∧
    ([] : List String) = [] :=
  ⟨rfl, c5_success_empty_diagnostics "/t/w5.tstl"
    ["# test\n", ">>> a\n", "!>>\n", "<<< b\n", "!<<\n"]
    ⟨false, false, "", ("b\n").data⟩ [] ⟨true, false, "a\n", []⟩ rfl⟩

/-- C7: (first conjunct) when the raw line at 0-based position `j` —
counting all raw lines, skipped comment and blank lines included — is the
first line on which `parseLine` raises, parsing the whole file fails with
the syntax error naming the absolute path, the 1-based line number `j + 1`
and the four valid tokens; (second conjunct) every directive that is
produced carries the `<absolute-path>:<1-based line>` location of its own
raw line. -/
theorem c7_syntax_error_location_and_origin :
    (∀ (absPath : String) (raw : List String) (j : Nat) (lj e : String),
      raw.get? j = some lj →
      (∀ i li, i < j → raw.get? i = some li →
        ∃ r, parseLine absPath i li = Except.ok r) →
      parseLine absPath j lj = Except.error e →
      read_test absPath raw = Except.error
        ("\nInvalid test at " ++ absPath ++ ":" ++ Nat.repr (j + 1) ++
         ". Expected line to start with one of >>> , !>>, <<< , !<<.")) ∧
    (∀ (absPath : String) (idx : Nat) (line : String) (d : Directive),
      parseLine absPath idx line = Except.ok (some d) →
      d.origin = absPath ++ ":" ++ Nat.repr (idx + 1)) := by
  constructor
  · intro absPath raw j lj e hj hok herr
    have h1 : readAux absPath 0 raw = Except.error e := by
      apply readAux_error_at absPath raw 0 j lj e hj
      · intro i li hi hget
        rw [Nat.zero_add]
        exact hok i li hi hget
      · rw [Nat.zero_add]
        exact herr
    have h2 := parseLine_error_msg herr
    rw [read_test, h1, h2]
  · intro absPath idx line d h
    exact parseLine_origin h

/-- Witness for C7: a file whose only line is `%%% nonsense` fails naming
line 1, and a concrete `>>> ` directive carries the matching origin. -/
theorem c7_syntax_error_location_and_origin_witness :
    read_test "/abs/w7.tstl" ["%%% nonsense\n"] =
      Except.error ("\nInvalid test at " ++ "/abs/w7.tstl" ++ ":" ++ Nat.repr (0 + 1) ++
        ". Expected line to start with one of >>> , !>>, <<< , !<<.") ∧
    (Directive.mk Kind.input "hi\n" "/abs/w7.tstl:1").origin =
      "/abs/w7.tstl" ++ ":" ++ Nat.repr (0 + 1) :=
  ⟨c7_syntax_error_location_and_origin.1 "/abs/w7.tstl" ["%%% nonsense\n"] 0
      "%%% nonsense\n" _ rfl (fun i _ hi _ => absurd hi (Nat.not_lt_zero i)) rfl,
   c7_syntax_error_location_and_origin.2 "/abs/w7.tstl" 0 ">>> hi\n"
      ⟨Kind.input, "hi\n", "/abs/w7.tstl:1"⟩ rfl⟩

/-- C10: if the child's output stream is already at end of stream when an
`Output` directive with a non-empty expected payload is processed,
`readline` returns the empty string, the ordinary mismatch branch fires
(there is no separate end-of-stream diagnostic in `run_test`), the actual
text is displayed as the empty string, and the run stops with
`passed = false` regardless of the remaining raw lines. -/
theorem c10_eof_output_mismatch (absPath : String) (idx : Nat) (line : String)
    (rawRest : List String) (child : Child) (acc : List String) (s origin : String)
    (h : parseLine absPath idx line = Except.ok (some ⟨Kind.output, s, origin⟩))
    (hout : child.stdout = []) (hs : s ≠ "") :
    runLines absPath idx (line :: rawRest) child acc =
      Except.ok (false,
        acc ++ ["At " ++ origin,
                "Expected\t\"" ++ pyDropLast s ++ "\"",
                "Got\t\t\"\""],
        child) := by
  obtain ⟨a, bp, sd, so⟩ := child
  simp only [] at hout
  subst hout
  have hne : String.mk (readlineChars ([] : List Char)).1 ≠ s := by
    intro hh
    exact hs hh.symm
  simp only [runLines, h, step]
  rw [if_neg hne]
  rfl

/-- Witness for C10: an `Output` directive against an exhausted stream shows
the empty string as the actual text. -/
theorem c10_eof_output_mismatch_witness :
    runLines "/t/w10.tstl" 0 ["<<< x\n"] ⟨false, false, "", []⟩ [] =
      Except.ok (false,
        ["At /t/w10.tstl:1", "Expected\t\"x\"", "Got\t\t\"\""],
        ⟨false, false, "", []⟩) :=
  c10_eof_output_mismatch "/t/w10.tstl" 0 "<<< x\n" [] ⟨false, false, "", []⟩ []
    "x\n" "/t/w10.tstl:1" rfl rfl (by decide)

/-- C1 (code evaluated at the failing input): a script with a second `!>>`
after stdin was closed runs to completion and returns `passed = true` with
no diagnostics — the second close is a silent no-op (`io.IOBase.close` has
no effect on an already-closed stream, so no `BrokenPipeError` is raised
and the `except` branch of lines 80-85 never fires for a double close),
the remaining directives are processed, and the already-closed diagnostic
promised by the code's own message text is never produced. -/
theorem c1_double_end_input_silently_ignored :
    run_test "/t/c1.tstl" [">>> hi\n", "!>>\n", "!>>\n", "!<<\n"]
      ⟨false, false, "", []⟩ =
      Except.ok (true, ([] : List String), ⟨true, false, "hi\n", []⟩) := rfl

/-- C3 counterexample: with a bad first file followed by a good file, the
whole run's printed output consists of the first file's progress chunk and
the `ValueError` message printed by `main` — the bad file is never reported
`FAILED.`, the second file is never run, and no summary line is printed.
This refutes the claim that the syntax error aborts only the one file. -/
theorem c3_syntax_error_aborts_whole_run_cex :
    main_run [c3File1, c3File2] =
      ["\nRunning test bad.tstl ... ",
       "\nInvalid test at /abs/bad.tstl:1. Expected line to start with one of >>> , !>>, <<< , !<<."] ∧
    ¬ ("[1/2] tests passed." ∈ main_run [c3File1, c3File2]) ∧
    ¬ ("FAILED." ∈ main_run [c3File1, c3File2]) ∧
    ¬ ("\nRunning test good.tstl ... " ∈ main_run [c3File1, c3File2]) := by
  refine ⟨rfl, ?_, ?_, ?_⟩ <;> decide

/-- C3 amended: a syntax error raised while running one file propagates out
of `cmd_run` to `main`, which catches the `ValueError` and prints its
message; the whole run aborts — the failing file is not reported `FAILED.`,
the remaining files are not run, and the summary line is not printed. -/
theorem c3_syntax_error_propagates (f : TestFile) (rest : List TestFile) (e : String)
    (h : run_test f.absPath f.lines f.child = Except.error e) :
    main_run (f :: rest) = ["\nRunning test " ++ f.path ++ " ... ", e] := by
  simp [main_run, cmd_run, processFiles, h]

/-- Witness for the amended C3 at a concrete file. -/
theorem c3_syntax_error_propagates_witness :
    main_run [c3File1] =
      ["\nRunning test " ++ c3File1.path ++ " ... ",
       "\nInvalid test at /abs/bad.tstl:1. Expected line to start with one of >>> , !>>, <<< , !<<."] :=
  c3_syntax_error_propagates c3File1 []
    "\nInvalid test at /abs/bad.tstl:1. Expected line to start with one of >>> , !>>, <<< , !<<."
    rfl

/-- C6 counterexample: when the actual line read does not end in a newline
(here the stream ends with `ab` and no newline), the diagnostic displays
`a` — the last character is dropped even though it is not a newline — so
the displayed text does not equal the line unchanged. -/
theorem c6_display_truncates_cex :
    run_test "/t/c6.tstl" ["<<< abc\n"] ⟨false, false, "", ("ab").data⟩ =
      Except.ok (false,
        ["At /t/c6.tstl:1", "Expected\t\"abc\"", "Got\t\t\"a\""],
        ⟨false, false, "", []⟩) ∧
    ("Got\t\t\"a\"" : String) ≠ "Got\t\t\"ab\"" :=
  ⟨rfl, by decide⟩

/-- C6 amended: mismatch diagnostics display the expected and actual texts
through `pyDropLast` (Python's `s[:-1]`), which drops the final character
unconditionally: on a newline-terminated string exactly the newline is
stripped, but on a string not ending in a newline the last real character
is dropped as well (the empty string stays empty). -/
theorem c6_display_drops_last_char :
    (∀ (u : String) (ch : Char), pyDropLast (u.push ch) = u) ∧
    (pyDropLast "" = "") ∧
    (∀ (s origin : String) (child : Child),
      String.mk (readlineChars child.stdout).1 ≠ s →
      step ⟨Kind.output, s, origin⟩ child =
        Except.ok (StepResult.fail
          ["At " ++ origin,
           "Expected\t\"" ++ pyDropLast s ++ "\"",
           "Got\t\t\"" ++ pyDropLast (String.mk (readlineChars child.stdout).1) ++ "\""]
          { child with stdout := (readlineChars child.stdout).2 })) := by
  refine ⟨?_, rfl, ?_⟩
  · intro u ch
    obtain ⟨data⟩ := u
    exact congrArg String.mk List.dropLast_concat
  · intro s origin child hne
    simp only [step]
    rw [if_neg hne]

/-- Witness for the amended C6: dropping the pushed newline recovers the
string, and a concrete mismatch shows the `pyDropLast`-formatted texts. -/
theorem c6_display_drops_last_char_witness :
    pyDropLast ("abc".push '\n') = "abc" ∧
    step ⟨Kind.output, "x\n", "/t/w6.tstl:1"⟩ ⟨false, false, "", ("y\n").data⟩ =
      Except.ok (StepResult.fail
        ["At " ++ "/t/w6.tstl:1",
         "Expected\t\"" ++ pyDropLast "x\n" ++ "\"",
         "Got\t\t\"" ++ pyDropLast (String.mk (readlineChars ("y\n").data).1) ++ "\""]
        { (⟨false, false, "", ("y\n").data⟩ : Child) with
            stdout := (readlineChars ("y\n").data).2 }) :=
  ⟨c6_display_drops_last_char.1 "abc" '\n',
   c6_display_drops_last_char.2.2 "x\n" "/t/w6.tstl:1"
     ⟨false, false, "", ("y\n").data⟩ (by decide)⟩

/-- C8 counterexample: an unrecognized subcommand name produces the
uncaught-`KeyError` outcome, not the clean usage outcome — the dict
subscript on line 204 sits outside the `try` block, which in any case
catches only `ValueError`. -/
theorem c8_unknown_subcommand_cex :
    main_dispatch ["tstl", "frobnicate"] = MainOutcome.uncaughtKeyError "frobnicate" ∧
    MainOutcome.uncaughtKeyError "frobnicate" ≠ MainOutcome.usage :=
  ⟨rfl, by decide⟩

/-- C8 amended: every invocation with a subcommand name missing from the
dispatch table terminates with an uncaught `KeyError` (an unhandled
exception), not a clean usage error; the clean reporting the spec asks for
is a requirement on a reimplementation, not baseline behaviour. -/
theorem c8_unknown_subcommand_keyerror (name : String) (rest : List String)
    (h : dictLookup SUBCOMMANDS name = none) :
    main_dispatch ("tstl" :: name :: rest) = MainOutcome.uncaughtKeyError name := by
  simp [main_dispatch, h]

/-- Witness for the amended C8. -/
theorem c8_unknown_subcommand_keyerror_witness :
    main_dispatch ["tstl", "nonesuch"] = MainOutcome.uncaughtKeyError "nonesuch" :=
  c8_unknown_subcommand_keyerror "nonesuch" [] rfl

/-- C9 counterexample: on the `Output`-mismatch return path the child's
stdin stream is still open when `run_test` returns (its stdin-closed flag
is `false` in the final child state), refuting the claim that stdin ends up
closed on every return path; `run_test` (lines 68-113) also contains no
`wait`/`communicate` call, so no reaping is performed on any path. -/
theorem c9_stdin_left_open_cex :
    run_test "/t/c9.tstl" ["<<< x\n"] ⟨false, false, "", ("y\n").data⟩ =
      Except.ok (false,
        ["At /t/c9.tstl:1", "Expected\t\"x\"", "Got\t\t\"y\""],
        ⟨false, false, "", []⟩) ∧
    (Child.mk false false "" []).stdinClosed = false :=
  ⟨rfl, rfl⟩

/-- C9 amended: the stdin stream is closed only by executing an `EndInput`
directive — if no raw line of the script starts with `!>>`, every return
path of `run_test` (success, `Output` mismatch, extra line at `EndOutput`)
leaves the stdin-closed flag exactly as it was at launch, and `run_test`
itself performs no explicit reaping of the child on any path. -/
theorem c9_stdin_closed_only_by_end_input (absPath : String) (raw : List String)
    (child : Child) (b : Bool) (ds : List String) (c' : Child)
    (hno : ∀ l ∈ raw, strStartsWith l "!>>" = false)
    (h : run_test absPath raw child = Except.ok (b, ds, c')) :
    c'.stdinClosed = child.stdinClosed :=
  runLines_stdinClosed absPath raw 0 child [] b ds c' hno h

/-- Witness for the amended C9 at a concrete mismatching run without
`!>>` lines. -/
theorem c9_stdin_closed_only_by_end_input_witness :
    (Child.mk false false "" []).stdinClosed =
      (Child.mk false false "" (("y\n").data)).stdinClosed :=
  c9_stdin_closed_only_by_end_input "/t/w9.tstl" ["<<< x\n"]
    ⟨false, false, "", ("y\n").data⟩ false
    ["At /t/w9.tstl:1", "Expected\t\"x\"", "Got\t\t\"y\""]
    ⟨false, false, "", []⟩ (by decide) rfl

end Tstl
